import Mathlib

/-!
A verification development for the fedora-family distro image-type registry and
manifest-construction engine of this repository.  The engine itself
(`pkg/distro/fedora`) is not among the shipped sources; only its test suite
(`pkg/distro/fedora/distro_test.go`) is.  The definitions below are therefore
modelled from the specification's description of the registry, the
customization validator, the partition planner and the manifest builder, with
all concrete constants (image-type catalogues per architecture and release
version, alias table, error-message formats, build package lists) taken from
the test suite, which exercises the engine through its public interface.
-/

namespace Images

/-- Modelled from the spec: the architectures the fedora-family registry
supports (the implementation's `distro.GetArch` names, listed by
`TestFedora_ListArches`). -/
inductive Arch
  | x86_64
  | aarch64
  | ppc64le
  | s390x
deriving DecidableEq, Fintype, Repr

/-- Modelled from the spec: the fedora-family distribution versions under
test (`NewF37` .. `NewF40`, with `Releasever()` strings "37" .. "40"). -/
inductive Releasever
  | f37
  | f38
  | f39
  | f40
deriving DecidableEq, Fintype, Repr

/-- Modelled from the spec: the `Releasever()` string of each version. -/
def Releasever.string : Releasever → String
  | .f37 => "37"
  | .f38 => "38"
  | .f39 => "39"
  | .f40 => "40"

/-- Modelled from the spec: a filesystem customization is a
(mountpoint, minimum-size) pair. -/
structure FilesystemCustomization where
  minSize : Nat
  mountpoint : String
deriving DecidableEq, Repr

/-- Modelled from the spec: kernel boot-parameter customization
(`blueprint.KernelCustomization`, field `Append`). -/
structure KernelCustomization where
  append : String
deriving DecidableEq, Repr

/-- Modelled from the spec: the blueprint customization classes the claims
exercise — kernel boot parameters and filesystem mountpoints. -/
structure Customizations where
  kernel : Option KernelCustomization
  filesystem : List FilesystemCustomization
deriving DecidableEq, Repr

/-- Modelled from the spec: a user blueprint with optional customizations. -/
structure Blueprint where
  customizations : Option Customizations
deriving DecidableEq, Repr

/-- Modelled from the spec: OSTree options inside `ImageOptions` carrying the
commit-source URL. -/
structure OSTreeOptions where
  url : String
deriving DecidableEq, Repr

/-- Modelled from the spec: per-call image options (OSTree commit source and
requested size). -/
structure ImageOptions where
  ostree : Option OSTreeOptions
  size : Nat
deriving DecidableEq, Repr

/-- Modelled from the spec: a named package inclusion/exclusion pair scoped to
one pipeline stage. -/
structure PackageSet where
  Include : List String
  Exclude : List String
deriving DecidableEq, Repr

/-- Modelled from the spec: one partition of the resolved disk layout: a
mountpoint with its minimum size in bytes. -/
structure PartitionSpec where
  mountpoint : String
  minSize : Nat
deriving DecidableEq, Repr

/-- Modelled from the spec: the output artifact of `Manifest()` — the ordered
pipeline list, the "build" package-set chain, and the resolved partition
table. -/
structure Manifest where
  pipelines : List String
  buildChain : List PackageSet
  partitionTable : List PartitionSpec
deriving DecidableEq, Repr

/-- Modelled from the spec: an image type as surfaced by the registry; the
claims only inspect its canonical name. -/
structure ImageType where
  name : String
deriving DecidableEq, Repr

/-- The image types every fedora-family version offers on a given
architecture, from `TestArchitecture_ListImageTypes`. -/
def baseImageTypes : Arch → List String
  | .x86_64 =>
      ["ami", "container", "image-installer", "iot-commit", "iot-container",
       "iot-installer", "iot-qcow2-image", "iot-raw-image", "live-installer",
       "minimal-raw", "oci", "openstack", "ova", "qcow2", "vhd", "vmdk", "wsl"]
  | .aarch64 =>
      ["ami", "container", "image-installer", "iot-commit", "iot-container",
       "iot-installer", "iot-qcow2-image", "iot-raw-image", "live-installer",
       "minimal-raw", "oci", "openstack", "qcow2"]
  | .ppc64le => ["container", "qcow2"]
  | .s390x => ["container", "qcow2"]

/-- Modelled from the spec: the per-version image-type catalogue.  Release
versions 38, 39 and 40 additionally offer `iot-simplified-installer` on
x86_64 and aarch64 (`TestArchitecture_ListImageTypes`'s `verTypes`). -/
def listImageTypes (a : Arch) (v : Releasever) : List String :=
  baseImageTypes a ++
    (if v ≠ Releasever.f37 ∧ (a = Arch.x86_64 ∨ a = Arch.aarch64) then
      ["iot-simplified-installer"]
    else [])

/-- The image-type alias table (alias, canonical), from
`TestImageTypeAliases` and `TestFilenameFromType`. -/
def imageTypeAliases : List (String × String) :=
  [("fedora-iot-commit", "iot-commit"),
   ("fedora-iot-container", "iot-container"),
   ("fedora-iot-installer", "iot-installer"),
   ("fedora-image-installer", "image-installer")]

/-- Modelled from the spec: alias resolution is a pure lookup table built at
registry-construction time; non-aliases resolve to themselves. -/
def resolveAlias (n : String) : String :=
  match (imageTypeAliases.filter (fun p => p.1 == n)).head? with
  | some p => p.2
  | none => n

/-- Modelled from the spec: `Architecture.GetImageType(nameOrAlias)` — resolve
the alias, then look the canonical name up in the architecture's catalogue;
the returned image type reports the canonical name. -/
def getImageType (a : Arch) (v : Releasever) (n : String) : Option ImageType :=
  let canonical := resolveAlias n
  if canonical ∈ listImageTypes a v then some ⟨canonical⟩ else none

/-- Whether a character list contains two consecutive path separators; the
spec's notion of a "dirty" mountpoint is any path containing `//`. -/
def hasDoubledSlashChars : List Char → Bool
  | [] => false
  | [_] => false
  | a :: b :: rest => (a == '/' && b == '/') || hasDoubledSlashChars (b :: rest)

/-- A mountpoint contains a doubled path separator (`//`). -/
def hasDoubledSlash (p : String) : Bool :=
  hasDoubledSlashChars p.data

/-- Whether the character list `pre` is a leading segment of `cs`. -/
def listStartsWith : List Char → List Char → Bool
  | [], _ => true
  | _ :: _, [] => false
  | a :: pre, b :: cs => a == b && listStartsWith pre cs

/-- Whether the character list ends in a path separator. -/
def endsWithSlash : List Char → Bool
  | [] => false
  | [c] => c == '/'
  | _ :: rest => endsWithSlash rest

/-- Modelled from the spec: the mountpoint policy of the partition planner —
a custom mountpoint must be an absolute, normalized path (no `//`, no trailing
slash beyond root) under the allowed prefix set; membership of `/`, `/usr` and
the `/var` subtree, and exclusion of `/etc`, follow the repository tests. -/
def mountpointOk (p : String) : Bool :=
  if hasDoubledSlash p then false
  else if p == "/" then true
  else if endsWithSlash p.data then false
  else p == "/usr" || p == "/var" || listStartsWith "/var/".data p.data

/-- Image types producing an OSTree commit or container, which categorically
reject kernel boot-parameter and mountpoint customizations. -/
def ostreeCommitType (n : String) : Bool :=
  n == "iot-commit" || n == "iot-container"

/-- Boot-ISO image types that embed an OSTree reference and hence require a
commit-source URL in the image options. -/
def ostreePayloadISO (n : String) : Bool :=
  n == "iot-installer" || n == "iot-simplified-installer"

/-- Boot-ISO image types (their unsupported-customization message names the
"boot ISO image type"). -/
def bootISOType (n : String) : Bool :=
  n == "image-installer" || n == "live-installer" || n == "iot-installer" ||
    n == "iot-simplified-installer"

/-- Image types outside the ostree and installer families: neither an
`iot-*` type, nor an `image-*` installer, nor the live installer. -/
def plainType (n : String) : Bool :=
  !(listStartsWith "iot-".data n.data || listStartsWith "image-".data n.data ||
      n == "live-installer")

/-- Modelled from the spec: the customization allow-list of the restricted
image types, with the exact lists the error messages of the test suite
enumerate; unrestricted types have no allow-list. -/
def allowedCustoms (n : String) : Option (List String) :=
  if n == "iot-simplified-installer" then
    some ["InstallationDevice", "FDO", "Ignition", "Kernel", "User", "Group", "FIPS"]
  else if n == "iot-installer" || n == "image-installer" then
    some ["User", "Group"]
  else if n == "live-installer" then
    some ["None"]
  else if n == "iot-raw-image" || n == "iot-qcow2-image" then
    some ["User", "Group", "Directories", "Files", "Services"]
  else none

/-- The customization classes a blueprint actually populates (of the classes
modelled here). -/
def presentKinds (bp : Blueprint) : List String :=
  match bp.customizations with
  | none => []
  | some c =>
      (if c.kernel.isSome then ["Kernel"] else []) ++
        (if c.filesystem.isEmpty then [] else ["Filesystem"])

/-- The kernel boot-parameter append string of a blueprint (empty when no
kernel customization is present). -/
def kernelAppend (bp : Blueprint) : String :=
  match bp.customizations with
  | none => ""
  | some c =>
      match c.kernel with
      | none => ""
      | some k => k.append

/-- The filesystem customizations of a blueprint. -/
def fsCustoms (bp : Blueprint) : List FilesystemCustomization :=
  match bp.customizations with
  | none => []
  | some c => c.filesystem

/-- Whether the image options carry a non-empty OSTree commit-source URL. -/
def hasOstreeURL (opts : ImageOptions) : Bool :=
  match opts.ostree with
  | none => false
  | some o => !(o.url == "")

/-- The missing-URL message of boot-ISO OSTree types, verbatim from the test
suite. -/
def urlMsg (n : String) : String :=
  "boot ISO image type \"" ++ n ++
    "\" requires specifying a URL from which to retrieve the OSTree commit"

/-- The kernel-customization rejection message of ostree commit types. -/
def kernelOstreeMsg : String :=
  "kernel boot parameter customizations are not supported for ostree types"

/-- The mountpoint-customization rejection message of ostree commit types. -/
def fsOstreeMsg : String :=
  "Custom mountpoints are not supported for ostree types"

/-- Render a list of paths the way Go's `%+q` renders a quoted-string slice:
space-separated, each path in double quotes. -/
def quoteJoin : List String → String
  | [] => ""
  | [p] => "\"" ++ p ++ "\""
  | p :: rest => "\"" ++ p ++ "\" " ++ quoteJoin rest

/-- The rejected-mountpoints message, verbatim from the test suite. -/
def notSupportedMsg (paths : List String) : String :=
  "The following custom mountpoints are not supported [" ++ quoteJoin paths ++ "]"

/-- Comma-join an allow-list for the unsupported-customizations message. -/
def commaJoin : List String → String
  | [] => ""
  | [s] => s
  | s :: rest => s ++ ", " ++ commaJoin rest

/-- The unsupported-customizations message, in its boot-ISO and generic
variants, verbatim from the test suite. -/
def allowedMsg (n : String) (allowed : List String) : String :=
  if bootISOType n then
    "unsupported blueprint customizations found for boot ISO image type \"" ++ n ++
      "\": (allowed: " ++ commaJoin allowed ++ ")"
  else
    "unsupported blueprint customizations found for image type \"" ++ n ++
      "\": (allowed: " ++ commaJoin allowed ++ ")"

/-- Modelled from the spec: boot-ISO OSTree types require a commit-source URL
in the image options. -/
def urlCheck (n : String) (opts : ImageOptions) : Option String :=
  if ostreePayloadISO n && !(hasOstreeURL opts) then some (urlMsg n) else none

/-- Modelled from the spec: kernel boot-parameter customization is
categorically rejected for OSTree-commit-producing image types, independent of
other blueprint content. -/
def ostreeKernelCheck (n : String) (bp : Blueprint) : Option String :=
  if ostreeCommitType n && !(kernelAppend bp == "") then some kernelOstreeMsg
  else none

/-- Modelled from the spec: filesystem customizations are categorically
rejected for OSTree-commit/container types. -/
def ostreeFsCheck (n : String) (bp : Blueprint) : Option String :=
  if ostreeCommitType n && !(fsCustoms bp).isEmpty then some fsOstreeMsg
  else none

/-- Modelled from the spec: the generic allow-list check — every
customization class present in the blueprint must be allowed for the image
type. -/
def allowCheck (n : String) (bp : Blueprint) : Option String :=
  match allowedCustoms n with
  | none => none
  | some allowed =>
      if (presentKinds bp).all (fun k => allowed.contains k) then none
      else some (allowedMsg n allowed)

/-- Modelled from the spec: the mountpoint policy check collects, in input
order, every requested mountpoint the policy rejects (dirty or outside the
allowed prefix set) and reports them all in one message. -/
def mountpointCheck (bp : Blueprint) : Option String :=
  match (fsCustoms bp).filter (fun f => !(mountpointOk f.mountpoint)) with
  | [] => none
  | offending => some (notSupportedMsg (offending.map (fun f => f.mountpoint)))

/-- Modelled from the spec: the customization validator — the cross-cutting
OSTree and boot-ISO rules, then the generic allow-list, then the mountpoint
policy; the first failure aborts the call. -/
def checkOptions (n : String) (bp : Blueprint) (opts : ImageOptions) : Option String :=
  match urlCheck n opts with
  | some e => some e
  | none =>
    match ostreeKernelCheck n bp with
    | some e => some e
    | none =>
      match ostreeFsCheck n bp with
      | some e => some e
      | none =>
        match allowCheck n bp with
        | some e => some e
        | none => mountpointCheck bp

/-- The fixed per-architecture "build" package list
(`TestImageType_BuildPackages`): BIOS-capable x86_64 additionally needs the
legacy bootloader package `grub2-pc`. -/
def buildPackages : Arch → List String
  | .x86_64 =>
      ["dnf", "dosfstools", "e2fsprogs", "policycoreutils", "qemu-img",
       "selinux-policy-targeted", "systemd", "tar", "xz", "grub2-pc"]
  | _ =>
      ["dnf", "dosfstools", "e2fsprogs", "policycoreutils", "qemu-img",
       "selinux-policy-targeted", "systemd", "tar", "xz"]

/-- Modelled from the spec: the default partition table an image type starts
from (a fixed sequence of mountpoints with minimum sizes). -/
def defaultPartitionTable (a : Arch) : List PartitionSpec :=
  match a with
  | .x86_64 => [⟨"/boot/efi", 209715200⟩, ⟨"/", 2147483648⟩]
  | _ => [⟨"/boot/efi", 209715200⟩, ⟨"/", 2147483648⟩]

/-- Modelled from the spec: merge one filesystem customization into the
table — grow an existing partition's minimum size to the larger of (default,
requested), or back a new mountpoint by a distinct new partition. -/
def mergeOne (t : List PartitionSpec) (f : FilesystemCustomization) : List PartitionSpec :=
  if t.any (fun p => p.mountpoint == f.mountpoint) then
    t.map (fun p =>
      if p.mountpoint == f.mountpoint then ⟨p.mountpoint, max p.minSize f.minSize⟩
      else p)
  else t ++ [⟨f.mountpoint, f.minSize⟩]

/-- Modelled from the spec: merge all filesystem customizations, in input
order, into the default table. -/
def mergeFilesystems (t : List PartitionSpec) (fs : List FilesystemCustomization) :
    List PartitionSpec :=
  fs.foldl mergeOne t

/-- Modelled from the spec: the pipeline family of an image type. -/
def pipelinesOf (n : String) : List String :=
  if ostreeCommitType n then ["build", "ostree-tree", "ostree-commit"]
  else if bootISOType n then ["build", "anaconda-tree", "bootiso-tree", "bootiso"]
  else ["build", "os", "image"]

/-- Modelled from the spec: assemble the manifest once validation succeeded —
the pipeline list of the image type's family, the build package-set chain
(exactly one set, determined by the architecture), and the merged partition
table.  The seed parameterizes randomized identifiers only, which the model
replaces by stable values. -/
def assemble (a : Arch) (n : String) (bp : Blueprint) (_opts : ImageOptions)
    (_seed : Int) : Manifest :=
  { pipelines := pipelinesOf n,
    buildChain := [⟨buildPackages a, []⟩],
    partitionTable := mergeFilesystems (defaultPartitionTable a) (fsCustoms bp) }

/-- Modelled from the spec: `ImageType.Manifest(blueprint, options, seed)` —
validate, then assemble; validation failure is fatal for the whole call and
no partial manifest is returned. -/
def manifest (a : Arch) (n : String) (bp : Blueprint) (opts : ImageOptions)
    (seed : Int) : Except String Manifest :=
  match checkOptions n bp opts with
  | some e => Except.error e
  | none => Except.ok (assemble a n bp opts seed)

instance {ε α : Type} [DecidableEq ε] [DecidableEq α] : DecidableEq (Except ε α) :=
  fun x y =>
    match x, y with
    | .ok a, .ok b =>
        if h : a = b then .isTrue (by subst h; rfl)
        else .isFalse (fun hc => h (by injection hc))
    | .ok _, .error _ => .isFalse (fun hc => by injection hc)
    | .error _, .ok _ => .isFalse (fun hc => by injection hc)
    | .error d, .error e =>
        if h : d = e then .isTrue (by subst h; rfl)
        else .isFalse (fun hc => h (by injection hc))

/-- A blueprint holding only the given filesystem customizations. -/
def bpOfFs (fs : List FilesystemCustomization) : Blueprint :=
  ⟨some ⟨none, fs⟩⟩

/-- The empty blueprint. -/
def emptyBp : Blueprint := ⟨none⟩

/-- Image options with no OSTree URL and no size request. -/
def emptyOpts : ImageOptions := ⟨none, 0⟩

/-- A name of the plain (non-ostree, non-installer) family differs from any
name outside that family. -/
theorem plain_ne {n : String} (h : plainType n = true) {m : String}
    (hm : plainType m = false) : n ≠ m := by
  intro he
  rw [he, hm] at h
  exact Bool.false_ne_true h

/-- Plain image types trigger none of the special-cased family flags and have
no customization allow-list. -/
theorem plain_flags {n : String} (h : plainType n = true) :
    ostreePayloadISO n = false ∧ ostreeCommitType n = false ∧ allowedCustoms n = none := by
  have e1 : (n == "iot-installer") = false := beq_eq_false_iff_ne.mpr (plain_ne h (by decide))
  have e2 : (n == "iot-simplified-installer") = false :=
    beq_eq_false_iff_ne.mpr (plain_ne h (by decide))
  have e3 : (n == "iot-commit") = false := beq_eq_false_iff_ne.mpr (plain_ne h (by decide))
  have e4 : (n == "iot-container") = false := beq_eq_false_iff_ne.mpr (plain_ne h (by decide))
  have e5 : (n == "image-installer") = false := beq_eq_false_iff_ne.mpr (plain_ne h (by decide))
  have e6 : (n == "live-installer") = false := beq_eq_false_iff_ne.mpr (plain_ne h (by decide))
  have e7 : (n == "iot-raw-image") = false := beq_eq_false_iff_ne.mpr (plain_ne h (by decide))
  have e8 : (n == "iot-qcow2-image") = false := beq_eq_false_iff_ne.mpr (plain_ne h (by decide))
  refine ⟨?_, ?_, ?_⟩
  · simp [ostreePayloadISO, e1, e2]
  · simp [ostreeCommitType, e3, e4]
  · simp [allowedCustoms, e1, e2, e5, e6, e7, e8]

/-- For plain image types the validator reduces to the mountpoint policy
check: none of the ostree, boot-ISO or allow-list rules applies. -/
theorem checkOptions_plain (n : String) (h : plainType n = true) (bp : Blueprint)
    (opts : ImageOptions) : checkOptions n bp opts = mountpointCheck bp := by
  obtain ⟨hpay, hcommit, hallow⟩ := plain_flags h
  have h1 : urlCheck n opts = none := by simp [urlCheck, hpay]
  have h2 : ostreeKernelCheck n bp = none := by simp [ostreeKernelCheck, hcommit]
  have h3 : ostreeFsCheck n bp = none := by simp [ostreeFsCheck, hcommit]
  have h4 : allowCheck n bp = none := by simp [allowCheck, hallow]
  unfold checkOptions
  rw [h1, h2, h3, h4]

/-- An OSTree commit/container type is `iot-commit` or `iot-container`. -/
theorem ostreeCommit_cases {n : String} (h : ostreeCommitType n = true) :
    n = "iot-commit" ∨ n = "iot-container" := by
  simpa [ostreeCommitType] using h

/-- OSTree commit/container types are not payload-carrying boot ISOs. -/
theorem ostreeCommit_not_payload {n : String} (h : ostreeCommitType n = true) :
    ostreePayloadISO n = false := by
  rcases ostreeCommit_cases h with he | he <;> subst he <;> decide

/-- On the empty blueprint with empty options, validation succeeds for every
image type that does not require an OSTree commit URL. -/
theorem checkOptions_empty (n : String) (hpay : ostreePayloadISO n = false) :
    checkOptions n emptyBp emptyOpts = none := by
  have h1 : urlCheck n emptyOpts = none := by simp [urlCheck, hpay]
  have h2 : ostreeKernelCheck n emptyBp = none := by
    simp [ostreeKernelCheck, show kernelAppend emptyBp = "" from rfl]
  have h3 : ostreeFsCheck n emptyBp = none := by
    simp [ostreeFsCheck, show fsCustoms emptyBp = [] from rfl]
  have h4 : allowCheck n emptyBp = none := by
    cases h : allowedCustoms n <;>
      simp [allowCheck, h, show presentKinds emptyBp = [] from rfl]
  have h5 : mountpointCheck emptyBp = none := rfl
  unfold checkOptions
  rw [h1, h2, h3, h4, h5]

/-- C1 is refuted at a concrete input: on the plain image type `qcow2` on
x86_64, a blueprint whose only filesystem customization is mountpoint `/usr`
with minimum size 1024 bytes does NOT fail — `Manifest()` succeeds, contrary
to the claimed `InsufficientPartitionSize` error. -/
theorem c1_usr_small_counterexample :
    (manifest Arch.x86_64 "qcow2" (bpOfFs [⟨1024, "/usr"⟩]) emptyOpts 0).isOk = true := by
  decide

/-- C1 (amended): for every image type outside the ostree and installer
families, on any architecture and release version, `Manifest()` with a
blueprint whose only filesystem customization is mountpoint `/usr` with
minimum size 1024 bytes succeeds without error — the requested minimum size
is merged into the partition plan rather than validated against required
content. -/
theorem c1_usr_small_succeeds (v : Releasever) (a : Arch) (n : String)
    (hmem : n ∈ listImageTypes a v) (hplain : plainType n = true)
    (opts : ImageOptions) (seed : Int) :
    ∃ m, manifest a n (bpOfFs [⟨1024, "/usr"⟩]) opts seed = Except.ok m := by
  refine ⟨assemble a n (bpOfFs [⟨1024, "/usr"⟩]) opts seed, ?_⟩
  unfold manifest
  rw [checkOptions_plain n hplain,
    show mountpointCheck (bpOfFs [⟨1024, "/usr"⟩]) = none from by decide]

/-- Witness for C1 (amended) at image type `qcow2` on x86_64, fedora 37. -/
theorem c1_usr_small_succeeds_witness :
    ∃ m, manifest Arch.x86_64 "qcow2" (bpOfFs [⟨1024, "/usr"⟩]) emptyOpts 0 = Except.ok m :=
  c1_usr_small_succeeds Releasever.f37 Arch.x86_64 "qcow2" (by decide) (by decide) emptyOpts 0

/-- C2: for every image type outside the ostree and installer families, on
any architecture and release version, filesystem customizations all of whose
mountpoints contain a doubled path separator make `Manifest()` fail with an
error whose message lists every offending path from the input verbatim, in
input order. -/
theorem c2_dirty_mountpoints_rejected (v : Releasever) (a : Arch) (n : String)
    (hmem : n ∈ listImageTypes a v) (hplain : plainType n = true)
    (fss : List FilesystemCustomization) (hne : fss ≠ [])
    (hdirty : ∀ f ∈ fss, hasDoubledSlash f.mountpoint = true)
    (opts : ImageOptions) (seed : Int) :
    manifest a n (bpOfFs fss) opts seed =
      Except.error (notSupportedMsg (fss.map (fun f => f.mountpoint))) := by
  unfold manifest
  rw [checkOptions_plain n hplain]
  have hfilter : fss.filter (fun f => !(mountpointOk f.mountpoint)) = fss := by
    apply List.filter_eq_self.mpr
    intro f hf
    simp [mountpointOk, hdirty f hf]
  unfold mountpointCheck
  rw [show fsCustoms (bpOfFs fss) = fss from rfl, hfilter]
  cases fss with
  | nil => exact absurd rfl hne
  | cons f rest => rfl

/-- Witness for C2 at image type `qcow2` on x86_64, fedora 37, with the dirty
mountpoints of the repository test suite. -/
theorem c2_dirty_mountpoints_witness :
    manifest Arch.x86_64 "qcow2"
        (bpOfFs [⟨1024, "//"⟩, ⟨1024, "/var//"⟩, ⟨1024, "/var//log/audit/"⟩]) emptyOpts 0 =
      Except.error
        "The following custom mountpoints are not supported [\"//\" \"/var//\" \"/var//log/audit/\"]" :=
  c2_dirty_mountpoints_rejected Releasever.f37 Arch.x86_64 "qcow2" (by decide) (by decide)
    [⟨1024, "//"⟩, ⟨1024, "/var//"⟩, ⟨1024, "/var//log/audit/"⟩] (by decide) (by decide)
    emptyOpts 0

/-- C3: for every OSTree commit/container image type (`iot-commit`,
`iot-container`) on any architecture and release version, any blueprint with
a non-empty kernel boot-parameter customization makes `Manifest()` fail with
exactly the message "kernel boot parameter customizations are not supported
for ostree types", regardless of other blueprint content. -/
theorem c3_ostree_kernel_rejected (v : Releasever) (a : Arch) (n : String)
    (hmem : n ∈ listImageTypes a v) (hostree : ostreeCommitType n = true)
    (bp : Blueprint) (hkernel : kernelAppend bp ≠ "")
    (opts : ImageOptions) (seed : Int) :
    manifest a n bp opts seed =
      Except.error "kernel boot parameter customizations are not supported for ostree types" := by
  have hurl : urlCheck n opts = none := by simp [urlCheck, ostreeCommit_not_payload hostree]
  have hk : ostreeKernelCheck n bp = some kernelOstreeMsg := by
    simp [ostreeKernelCheck, hostree, beq_eq_false_iff_ne.mpr hkernel]
  unfold manifest checkOptions
  rw [hurl, hk]
  rfl

/-- Witness for C3 at `iot-commit` on x86_64, fedora 37, with
`Kernel.Append = "debug"`. -/
theorem c3_ostree_kernel_witness :
    manifest Arch.x86_64 "iot-commit" ⟨some ⟨some ⟨"debug"⟩, []⟩⟩ emptyOpts 0 =
      Except.error "kernel boot parameter customizations are not supported for ostree types" :=
  c3_ostree_kernel_rejected Releasever.f37 Arch.x86_64 "iot-commit" (by decide) (by decide)
    ⟨some ⟨some ⟨"debug"⟩, []⟩⟩ (by decide) emptyOpts 0

/-- C4 is refuted at a concrete input: on `iot-commit`, a blueprint that
contains a filesystem customization (the root mountpoint) but also a kernel
boot-parameter customization fails with the kernel message, not with "Custom
mountpoints are not supported for ostree types" — the kernel rule is checked
first. -/
theorem c4_ostree_mountpoints_counterexample :
    manifest Arch.x86_64 "iot-commit" ⟨some ⟨some ⟨"debug"⟩, [⟨1024, "/"⟩]⟩⟩ emptyOpts 0 ≠
      Except.error "Custom mountpoints are not supported for ostree types" := by
  decide

/-- C4 (amended): for every OSTree commit/container image type on any
architecture and release version, a blueprint with a non-empty filesystem
customization — including the root mountpoint `/` — and no kernel
boot-parameter customization makes `Manifest()` fail with exactly the message
"Custom mountpoints are not supported for ostree types". -/
theorem c4_ostree_mountpoints_rejected (v : Releasever) (a : Arch) (n : String)
    (hmem : n ∈ listImageTypes a v) (hostree : ostreeCommitType n = true)
    (bp : Blueprint) (hker : kernelAppend bp = "") (hfs : fsCustoms bp ≠ [])
    (opts : ImageOptions) (seed : Int) :
    manifest a n bp opts seed =
      Except.error "Custom mountpoints are not supported for ostree types" := by
  have hurl : urlCheck n opts = none := by simp [urlCheck, ostreeCommit_not_payload hostree]
  have hk : ostreeKernelCheck n bp = none := by simp [ostreeKernelCheck, hker]
  have hf : ostreeFsCheck n bp = some fsOstreeMsg := by
    cases hl : fsCustoms bp with
    | nil => exact absurd hl hfs
    | cons f rest => simp [ostreeFsCheck, hostree, hl]
  unfold manifest checkOptions
  rw [hurl, hk, hf]
  rfl

/-- Witness for C4 (amended) at `iot-commit` on x86_64, fedora 37, with the
root mountpoint customized. -/
theorem c4_ostree_mountpoints_witness :
    manifest Arch.x86_64 "iot-commit" (bpOfFs [⟨1024, "/"⟩]) emptyOpts 0 =
      Except.error "Custom mountpoints are not supported for ostree types" :=
  c4_ostree_mountpoints_rejected Releasever.f37 Arch.x86_64 "iot-commit" (by decide) (by decide)
    (bpOfFs [⟨1024, "/"⟩]) (by decide) (by decide) emptyOpts 0

/-- C5: for every boot-ISO image type embedding an OSTree reference
(`iot-installer`, `iot-simplified-installer`) on any architecture and release
version, `Manifest()` with image options lacking a commit-source URL fails
with exactly the message `boot ISO image type "<name>" requires specifying a
URL from which to retrieve the OSTree commit`. -/
theorem c5_bootiso_requires_url (v : Releasever) (a : Arch) (n : String)
    (hmem : n ∈ listImageTypes a v) (hpay : ostreePayloadISO n = true)
    (bp : Blueprint) (opts : ImageOptions) (hurl : hasOstreeURL opts = false)
    (seed : Int) :
    manifest a n bp opts seed = Except.error (urlMsg n) := by
  have h : urlCheck n opts = some (urlMsg n) := by simp [urlCheck, hpay, hurl]
  unfold manifest checkOptions
  rw [h]

/-- Witness for C5 at `iot-installer` on x86_64, fedora 37, with empty image
options. -/
theorem c5_bootiso_requires_url_witness :
    manifest Arch.x86_64 "iot-installer" emptyBp emptyOpts 0 =
      Except.error
        "boot ISO image type \"iot-installer\" requires specifying a URL from which to retrieve the OSTree commit" :=
  c5_bootiso_requires_url Releasever.f37 Arch.x86_64 "iot-installer" (by decide) (by decide)
    emptyBp emptyOpts (by decide) 0

/-- C6: on every architecture of every fedora-family release version, every
image-type alias of the alias table resolves via `GetImageType` to an image
type whose name is the canonical name whenever the canonical type is
supported on that architecture, and the alias itself never appears in
`ListImageTypes()`. -/
theorem c6_alias_resolution :
    ∀ v : Releasever, ∀ a : Arch, ∀ p ∈ imageTypeAliases,
      (p.2 ∈ listImageTypes a v →
        (getImageType a v p.1).map ImageType.name = some p.2) ∧
      p.1 ∉ listImageTypes a v := by
  decide

/-- Witness for C6: `fedora-iot-commit` on x86_64, fedora 37 resolves to the
canonical `iot-commit` and is itself not listed. -/
theorem c6_alias_resolution_witness :
    ((getImageType Arch.x86_64 Releasever.f37 "fedora-iot-commit").map ImageType.name =
      some "iot-commit") ∧
    "fedora-iot-commit" ∉ listImageTypes Arch.x86_64 Releasever.f37 := by
  have h := c6_alias_resolution Releasever.f37 Arch.x86_64 ("fedora-iot-commit", "iot-commit")
    (by decide)
  exact ⟨h.1 (by decide), h.2⟩

/-- C7 is refuted at a concrete input: on `iot-installer`, `Manifest()` with
an empty blueprint (and the empty image options the repository test passes)
does not yield a manifest at all — it fails with the missing-OSTree-URL
error. -/
theorem c7_build_packages_counterexample :
    manifest Arch.x86_64 "iot-installer" emptyBp emptyOpts 0 =
      Except.error
        "boot ISO image type \"iot-installer\" requires specifying a URL from which to retrieve the OSTree commit" := by
  decide

/-- C7 (amended): for every image type of every fedora-family release version
except the OSTree installer types that require a commit URL (`iot-installer`,
`iot-simplified-installer`), `Manifest()` with an empty blueprint and empty
options yields a manifest whose build package-set chain has exactly one
`PackageSet`, whose `Include` list is the fixed per-architecture build package
list; the x86_64 list contains the legacy bootloader package `grub2-pc` and
no other architecture's list does. -/
theorem c7_build_packages (v : Releasever) (a : Arch) (n : String)
    (hmem : n ∈ listImageTypes a v) (hpay : ostreePayloadISO n = false)
    (seed : Int) :
    ∃ m, manifest a n emptyBp emptyOpts seed = Except.ok m ∧
      m.buildChain = [⟨buildPackages a, []⟩] ∧
      (("grub2-pc" ∈ buildPackages a) ↔ a = Arch.x86_64) := by
  refine ⟨assemble a n emptyBp emptyOpts seed, ?_, rfl, ?_⟩
  · unfold manifest
    rw [checkOptions_empty n hpay]
  · cases a <;> decide

/-- Witness for C7 (amended) at image type `qcow2` on x86_64, fedora 37. -/
theorem c7_build_packages_witness :
    ∃ m, manifest Arch.x86_64 "qcow2" emptyBp emptyOpts 0 = Except.ok m ∧
      m.buildChain = [⟨buildPackages Arch.x86_64, []⟩] ∧
      (("grub2-pc" ∈ buildPackages Arch.x86_64) ↔ Arch.x86_64 = Arch.x86_64) :=
  c7_build_packages Releasever.f37 Arch.x86_64 "qcow2" (by decide) (by decide) 0

/-- C8: for every image type outside the ostree and installer families, on
any architecture and release version, filesystem customizations whose
mountpoints are clean nested paths below `/var` — of arbitrary depth, in
particular depth four or more — are accepted: `Manifest()` succeeds without
error. -/
theorem c8_nested_mountpoints_allowed (v : Releasever) (a : Arch) (n : String)
    (hmem : n ∈ listImageTypes a v) (hplain : plainType n = true)
    (fss : List FilesystemCustomization)
    (hvar : ∀ f ∈ fss, listStartsWith "/var/".data f.mountpoint.data = true ∧
      hasDoubledSlash f.mountpoint = false ∧ endsWithSlash f.mountpoint.data = false)
    (opts : ImageOptions) (seed : Int) :
    ∃ m, manifest a n (bpOfFs fss) opts seed = Except.ok m := by
  refine ⟨assemble a n (bpOfFs fss) opts seed, ?_⟩
  unfold manifest
  rw [checkOptions_plain n hplain]
  have hfilter : fss.filter (fun f => !(mountpointOk f.mountpoint)) = [] := by
    apply List.filter_eq_nil_iff.mpr
    intro f hf
    obtain ⟨h1, h2, h3⟩ := hvar f hf
    cases hroot : f.mountpoint == "/" <;> simp [mountpointOk, h1, h2, h3, hroot]
  unfold mountpointCheck
  rw [show fsCustoms (bpOfFs fss) = fss from rfl, hfilter]

/-- Witness for C8 at image type `qcow2` on x86_64, fedora 37, with the
depth-four nest of the repository test suite. -/
theorem c8_nested_mountpoints_witness :
    ∃ m, manifest Arch.x86_64 "qcow2"
      (bpOfFs [⟨1024, "/var/a"⟩, ⟨1024, "/var/a/b"⟩, ⟨1024, "/var/a/b/c"⟩,
        ⟨1024, "/var/a/b/c/d"⟩]) emptyOpts 0 = Except.ok m :=
  c8_nested_mountpoints_allowed Releasever.f37 Arch.x86_64 "qcow2" (by decide) (by decide)
    [⟨1024, "/var/a"⟩, ⟨1024, "/var/a/b"⟩, ⟨1024, "/var/a/b/c"⟩, ⟨1024, "/var/a/b/c/d"⟩]
    (by decide) emptyOpts 0

/-- C10: the image type `iot-simplified-installer` is listed, and resolvable
via `GetImageType`, exactly on x86_64 and aarch64 of release versions 38, 39
and 40 — never on release version 37 — and apart from it the per-architecture
image-type catalogue is identical across all four release versions. -/
theorem c10_simplified_installer_versioning :
    ∀ v : Releasever, ∀ a : Arch,
      (("iot-simplified-installer" ∈ listImageTypes a v) ↔
        (v ≠ Releasever.f37 ∧ (a = Arch.x86_64 ∨ a = Arch.aarch64))) ∧
      ((getImageType a v "iot-simplified-installer").isSome = true ↔
        (v ≠ Releasever.f37 ∧ (a = Arch.x86_64 ∨ a = Arch.aarch64))) ∧
      (listImageTypes a v).filter (fun m => !(m == "iot-simplified-installer")) =
        listImageTypes a Releasever.f37 := by
  decide

end Images
